import Mathlib

/-!
# Verification of the sample_mflix query compiler and startup verifier

Shallow embedding of the query-building logic of the `GET /api/movies`
handlers (the Express controller at
`server/express/src/controllers/movieController.ts`, the revised Express
controller shipped alongside the type definitions, and the Java-Spring
service `MovieServiceImpl`), of the batch-delete guard, and of the startup
database verifier (`DatabaseVerification.verifyDatabase` and the Express
`startServer`).  Host-language primitives that the handlers rely on
(JavaScript `parseInt`/`parseFloat`, number truthiness, `Math.min`/`Math.max`
NaN propagation, `RegExp`/`java.util.regex.Pattern` compilation and
case-insensitive matching, MongoDB conjunctive filter application) are
modelled explicitly below; each such model documents the subset it covers.
-/

namespace Mflix

/-! ## JavaScript numeric parsing

JavaScript numbers are modelled as `Option Int` / `Option ℚ`, with `none`
standing for `NaN`.  `parseIntJs` and `parseFloatJs` model the decimal
fragment of `parseInt(s)` / `parseFloat(s)`: optional leading whitespace,
optional sign, then the maximal numeric prefix; no hex or exponent forms
(none of the handlers feed such strings in their documented use). -/

/-- Numeric value of a list of decimal digits. -/
def digitsVal (ds : List Char) : Nat :=
  ds.foldl (fun a c => 10 * a + (c.toNat - 48)) 0

/-- JavaScript `parseInt(s, 10)` on the decimal fragment: `none` is `NaN`. -/
def parseIntJs (s : String) : Option Int :=
  let cs := s.data.dropWhile Char.isWhitespace
  let signed : Int × List Char :=
    match cs with
    | '-' :: r => (-1, r)
    | '+' :: r => (1, r)
    | r => (1, r)
  let ds := signed.2.takeWhile Char.isDigit
  if ds.isEmpty then none else some (signed.1 * (digitsVal ds : Int))

/-- JavaScript `parseFloat(s)` on the plain decimal fragment (sign, integer
digits, optional fraction): `none` is `NaN`. -/
def parseFloatJs (s : String) : Option ℚ :=
  let cs := s.data.dropWhile Char.isWhitespace
  let signed : ℚ × List Char :=
    match cs with
    | '-' :: r => (-1, r)
    | '+' :: r => (1, r)
    | r => (1, r)
  let intPart := signed.2.takeWhile Char.isDigit
  let rest := signed.2.dropWhile Char.isDigit
  let fracPart : List Char :=
    match rest with
    | '.' :: r => r.takeWhile Char.isDigit
    | _ => []
  if intPart.isEmpty && fracPart.isEmpty then none
  else
    some (signed.1 *
      ((digitsVal intPart : ℚ) + (digitsVal fracPart : ℚ) / (10 : ℚ) ^ fracPart.length))

/-- JavaScript truthiness of an optional string value: `undefined` and the
empty string are falsy, every other string is truthy. -/
def strTruthy : Option String → Bool
  | none => false
  | some s => s ≠ ""

/-- JavaScript `v || d` on a number `v` (modelled as `Option Int`, `none` =
`NaN`): `NaN`, `0` and `-0` are falsy and select the fallback `d`. -/
def jsOrInt (v : Option Int) (d : Int) : Int :=
  match v with
  | none => d
  | some n => if n = 0 then d else n

/-! ## Regular-expression model

`new RegExp(genre, 'i')` (Express) and
`Pattern.compile(genre, Pattern.CASE_INSENSITIVE)` (Java) compile the raw
genre string as a regular-expression pattern.  The model covers the common
subset in which both engines agree: literal characters, `.`, and the `^`/`$`
anchors; any other metacharacter (`\`, `*`, `+`, `?`, `(`, `)`, `[`, `]`,
`|`, braces) makes compilation fail, as an unmatched `(` does in both
engines.  Matching is unanchored search with the case-insensitive flag. -/

inductive RAtom where
  | lit (c : Char)
  | dot
  | bol
  | eol
deriving DecidableEq, Repr

/-- Characters the pattern model refuses (regex syntax characters other than
`.`, `^`, `$`). `Char.ofNat 123` / `125` are the curly braces. -/
def regexMetaChar (c : Char) : Bool :=
  c = '\\' || c = '*' || c = '+' || c = '?' || c = '(' || c = ')' ||
  c = '[' || c = ']' || c = '|' || c = Char.ofNat 123 || c = Char.ofNat 125

/-- Compile a raw pattern string to the atom-list model; `none` models the
`SyntaxError` / `PatternSyntaxException` raised on an invalid pattern. -/
def compileRegex (pat : String) : Option (List RAtom) :=
  pat.data.mapM fun c =>
    if c = '.' then some RAtom.dot
    else if c = '^' then some RAtom.bol
    else if c = '$' then some RAtom.eol
    else if regexMetaChar c then none
    else some (RAtom.lit c)

/-- Case-insensitive character comparison (the `i` flag). -/
def charEqCI (a b : Char) : Bool :=
  a.toLower = b.toLower

/-- Match the atom list against `s` starting at index `i`; anchors test the
real string boundaries. -/
def matchesAt : List RAtom → List Char → Nat → Bool
  | [], _, _ => true
  | RAtom.bol :: p, s, i => i = 0 && matchesAt p s i
  | RAtom.eol :: p, s, i => i = s.length && matchesAt p s i
  | RAtom.dot :: p, s, i => i < s.length && matchesAt p s (i + 1)
  | RAtom.lit c :: p, s, i =>
    match s.get? i with
    | some d => charEqCI c d && matchesAt p s (i + 1)
    | none => false

/-- Unanchored regex search (`RegExp.test` / `Matcher.find`, and the MongoDB
`$regex` operator on a single string value). -/
def regexTest (p : List RAtom) (s : String) : Bool :=
  (List.range (s.data.length + 1)).any fun i => matchesAt p s.data i

/-- `needle` matches the front of `hay` character by character,
case-insensitively. -/
def headMatchCI : List Char → List Char → Bool
  | [], _ => true
  | _ :: _, [] => false
  | a :: as, b :: bs => charEqCI a b && headMatchCI as bs

/-- The spec's notion for genre filtering: `needle` occurs in `hay` as a
case-insensitive substring at some position. -/
def containsSubstrCI (hay needle : String) : Bool :=
  (List.range (hay.data.length + 1)).any fun i =>
    headMatchCI needle.data (hay.data.drop i)

/-! ## Filter and query data model -/

/-- The `imdb.rating` range sub-document built by the handlers.  A field is
`none` when the handler did not add the bound; a stored bound of `none`
models a `NaN` bound (Express `parseFloat` failure). -/
structure RatingRange where
  gte : Option (Option ℚ) := none
  lte : Option (Option ℚ) := none
deriving DecidableEq, Repr

/-- The MongoDB filter document built by `getAllMovies` / `buildFilter`:
`$text`, `genres: $regex`, `year`, `imdb.rating`.  `year = some none`
models a present `NaN` year (Express `parseInt` failure). -/
structure MovieFilter where
  text : Option String := none
  genres : Option (List RAtom) := none
  year : Option (Option Int) := none
  rating : Option RatingRange := none
deriving DecidableEq, Repr

/-- The tuple the compiler hands to the storage layer: filter, single-field
sort, limit and skip.  `limit`/`skip` are `none` when the original Express
controller produces `NaN`. -/
structure CompiledQuery where
  filter : MovieFilter := {}
  sortField : String := "title"
  sortDir : Int := 1
  lim : Option Int := none
  skipN : Option Int := none
deriving DecidableEq, Repr

/-- Raw string query parameters of the Express handlers (`req.query`);
`none` is an absent parameter. -/
structure RawQuery where
  q : Option String := none
  genre : Option String := none
  year : Option String := none
  minRating : Option String := none
  maxRating : Option String := none
  lim : Option String := none
  skipP : Option String := none
  sortBy : Option String := none
  sortOrder : Option String := none
deriving DecidableEq, Repr

/-! ## Movie documents and filter application

The storage layer is external; the spec (§6) requires it to apply the
compiled filter verbatim as a conjunction.  `MovieDoc` keeps the fields the
filter inspects; `$text` matching is delegated to an oracle `tm` standing
for the text-index semantics.  Modelled from the spec and MongoDB BSON
comparison (a `NaN` bound compares below every number and equal only to
`NaN`; a range predicate does not match a document missing the field). -/

structure MovieDoc where
  title : String := ""
  yearD : Option Int := none
  genresD : List String := []
  ratingD : Option ℚ := none
deriving DecidableEq, Repr

/-- Does a rating value satisfy the compiled `imdb.rating` range? -/
def RatingRange.holdsFor (rr : RatingRange) (r : Option ℚ) : Bool :=
  match r with
  | none => false
  | some v =>
    (match rr.gte with
     | none => true
     | some (some b) => b ≤ v
     | some none => true) &&
    (match rr.lte with
     | none => true
     | some (some b) => v ≤ b
     | some none => false)

/-- Conjunctive application of the compiled filter to a document, with `tm`
the text-index oracle. -/
def MovieFilter.docMatches (f : MovieFilter) (tm : String → MovieDoc → Bool)
    (doc : MovieDoc) : Bool :=
  (match f.text with
   | none => true
   | some qs => tm qs doc) &&
  (match f.genres with
   | none => true
   | some pat => doc.genresD.any fun g => regexTest pat g) &&
  (match f.year with
   | none => true
   | some (some y) => doc.yearD = some y
   | some none => false) &&
  (match f.rating with
   | none => true
   | some rr => rr.holdsFor doc.ratingD)

/-! ## Express handlers

Two variants exist in the repository.  `ExpressCtrl` embeds
`movieController.ts` (`Math.min(parseInt(limit), 100)`, bare
`parseInt(skip)`); `ExpressRev` embeds the revised handler
(`Math.min(Math.max(parseInt(limit) || 20, 1), 100)` and
`Math.max(parseInt(skip) || 0, 0)`).  Both share the same filter- and
sort-building code, embedded once as `expressFilter` / `expressSortDir`. -/

/-- Filter construction shared verbatim by both Express variants: `$text`
from `q`, `$regex` from `genre` (throws on an invalid pattern), `year` from
`parseInt`, `imdb.rating` bounds from `parseFloat`. -/
def expressFilter (qp : RawQuery) : Except String MovieFilter := do
  let f0 : MovieFilter := {}
  let f1 := if strTruthy qp.q then { f0 with text := qp.q } else f0
  let f2 ←
    if strTruthy qp.genre then
      match compileRegex (qp.genre.getD "") with
      | some pat => pure { f1 with genres := some pat }
      | none => throw "SyntaxError: invalid regular expression"
    else pure f1
  let f3 :=
    if strTruthy qp.year then
      { f2 with year := some (parseIntJs (qp.year.getD "")) }
    else f2
  let f4 :=
    if strTruthy qp.minRating || strTruthy qp.maxRating then
      { f3 with
        rating := some
          { gte := if strTruthy qp.minRating
                   then some (parseFloatJs (qp.minRating.getD "")) else none,
            lte := if strTruthy qp.maxRating
                   then some (parseFloatJs (qp.maxRating.getD "")) else none } }
    else f3
  pure f4

/-- `sort[sortBy] = sortOrder === 'desc' ? -1 : 1` with destructuring
default `'asc'`: a strict, case-sensitive comparison. -/
def expressSortDir (sortOrder : Option String) : Int :=
  if sortOrder.getD "asc" = "desc" then -1 else 1

/-- Original controller: `Math.min(parseInt(limit), 100)` with destructuring
default `'20'`; `Math.min` propagates `NaN`. -/
def ExpressCtrl.limitNum (lim : Option String) : Option Int :=
  (parseIntJs (lim.getD "20")).map fun n => min n 100

/-- Original controller: bare `parseInt(skip)` with destructuring default
`'0'`. -/
def ExpressCtrl.skipNum (skipP : Option String) : Option Int :=
  parseIntJs (skipP.getD "0")

/-- Original Express `getAllMovies` query construction
(`movieController.ts`). -/
def ExpressCtrl.getAllMoviesQuery (qp : RawQuery) : Except String CompiledQuery := do
  let f ← expressFilter qp
  pure
    { filter := f,
      sortField := qp.sortBy.getD "title",
      sortDir := expressSortDir qp.sortOrder,
      lim := ExpressCtrl.limitNum qp.lim,
      skipN := ExpressCtrl.skipNum qp.skipP }

/-- Revised handler: `Math.min(Math.max(parseInt(limit) || 20, 1), 100)`. -/
def ExpressRev.limitNum (lim : Option String) : Int :=
  min (max (jsOrInt (parseIntJs (lim.getD "20")) 20) 1) 100

/-- Revised handler: `Math.max(parseInt(skip) || 0, 0)`. -/
def ExpressRev.skipNum (skipP : Option String) : Int :=
  max (jsOrInt (parseIntJs (skipP.getD "0")) 0) 0

/-- Revised Express `getAllMovies` query construction. -/
def ExpressRev.getAllMoviesQuery (qp : RawQuery) : Except String CompiledQuery := do
  let f ← expressFilter qp
  pure
    { filter := f,
      sortField := qp.sortBy.getD "title",
      sortDir := expressSortDir qp.sortOrder,
      lim := some (ExpressRev.limitNum qp.lim),
      skipN := some (ExpressRev.skipNum qp.skipP) }

/-! ## Java-Spring service

`MovieSearchQuery` fields are typed (`Integer`, `Double`) as bound by
Spring; the DTO class itself is not under `src/`, its field types are fixed
by the uses in `MovieServiceImpl` (arithmetic on `getLimit()/getSkip()`,
rating bounds appended to a `$gte`/`$lte` document, `getYear()` as an exact
value). -/

structure MovieSearchQuery where
  q : Option String := none
  genre : Option String := none
  year : Option Int := none
  minRating : Option ℚ := none
  maxRating : Option ℚ := none
  lim : Option Int := none
  skipP : Option Int := none
  sortBy : Option String := none
  sortOrder : Option String := none
deriving DecidableEq, Repr

/-- Java `s.trim().isEmpty()`: the string is blank — every character is
whitespace (Java trims the ASCII control range; whitespace characters
cover the forms that occur here). -/
def javaBlank (s : String) : Bool :=
  s.data.all Char.isWhitespace

/-- Java `"desc".equalsIgnoreCase(sortOrder)`: the two strings compared
character by character after lowercasing, `false` on `null`. -/
def equalsIgnoreCaseDesc (sortOrder : Option String) : Bool :=
  match sortOrder with
  | some s => "desc".data.map Char.toLower = s.data.map Char.toLower
  | none => false

/-- `MovieServiceImpl.buildFilter`. -/
def Java.buildFilter (query : MovieSearchQuery) : Except String MovieFilter := do
  let f0 : MovieFilter := {}
  let f1 :=
    match query.q with
    | some s => if javaBlank s then f0 else { f0 with text := some s }
    | none => f0
  let f2 ←
    match query.genre with
    | some g =>
      if javaBlank g then pure f1
      else
        match compileRegex g with
        | some pat => pure { f1 with genres := some pat }
        | none => throw "PatternSyntaxException"
    | none => pure f1
  let f3 :=
    match query.year with
    | some y => { f2 with year := some (some y) }
    | none => f2
  let f4 :=
    if query.minRating.isSome || query.maxRating.isSome then
      { f3 with
        rating := some
          { gte := query.minRating.map some,
            lte := query.maxRating.map some } }
    else f3
  pure f4

/-- `MovieServiceImpl.buildSort`. -/
def Java.buildSort (sortBy sortOrder : Option String) : String × Int :=
  let field :=
    match sortBy with
    | some s => if javaBlank s then "title" else s
    | none => "title"
  let order : Int := if equalsIgnoreCaseDesc sortOrder then -1 else 1
  (field, order)

/-- `Math.min(Math.max(query.getLimit() != null ? query.getLimit() : 20, 1), 100)`. -/
def Java.limitOf (lim : Option Int) : Int :=
  min (max (lim.getD 20) 1) 100

/-- `Math.max(query.getSkip() != null ? query.getSkip() : 0, 0)`. -/
def Java.skipOf (skipP : Option Int) : Int :=
  max (skipP.getD 0) 0

/-- `MovieServiceImpl.getAllMovies`: filter, sort and clamped pagination. -/
def Java.getAllMovies (query : MovieSearchQuery) : Except String CompiledQuery := do
  let f ← Java.buildFilter query
  let s := Java.buildSort query.sortBy query.sortOrder
  pure
    { filter := f,
      sortField := s.1,
      sortDir := s.2,
      lim := some (Java.limitOf query.lim),
      skipN := some (Java.skipOf query.skipP) }

/-! ## Startup verifier

The database calls performed by the verifier are external; their outcomes
are passed in as `Except` values (`error` = the call threw).  The Java
verifier is embedded from `DatabaseVerification.java`; the Express
`verifyRequirements` body lives in `config/database.ts`, which is not part
of the available sources, and is therefore modelled from the spec. -/

inductive LogLevel where
  | info
  | warn
  | error
deriving DecidableEq, Repr

/-- Outcomes of the verifier's two database calls. -/
structure DbOutcomes where
  countResult : Except String Nat := .ok 0
  indexResult : Except String Unit := .ok ()
deriving Repr

/-- `DatabaseVerification.createTextSearchIndex`: its own try/catch turns an
index-creation failure into error+warning logs. -/
def Java.createTextSearchIndex (res : Except String Unit) : List (LogLevel × String) :=
  match res with
  | .ok _ => [(.info, "Text search index created/verified for movies collection")]
  | .error e =>
    [(.error, "Could not create text search index: " ++ e),
     (.warn, "Text search functionality may not work without the index")]

/-- `DatabaseVerification.verifyMoviesCollection`: the count read may throw
(propagated to the caller); an empty collection only logs a warning. -/
def Java.verifyMoviesCollection (o : DbOutcomes) : Except String (List (LogLevel × String)) := do
  let count ← o.countResult
  let countLogs :=
    [(LogLevel.info, "Movies collection found with documents")] ++
    (if count = 0 then
      [(LogLevel.warn, "Movies collection is empty. Please ensure sample_mflix data is loaded.")]
     else [])
  pure (countLogs ++ Java.createTextSearchIndex o.indexResult)

/-- `DatabaseVerification.verifyDatabase`: the outermost try/catch converts
any exception into an error log; the result is an `Except` so that a path
that escaped the catch would show up as `.error`. -/
def Java.verifyDatabase (o : DbOutcomes) : Except String (List (LogLevel × String)) :=
  match Java.verifyMoviesCollection o with
  | .ok logs =>
    .ok ([(.info, "Starting database verification")] ++ logs ++
         [(.info, "Database verification completed successfully")])
  | .error e =>
    .ok [(.info, "Starting database verification"),
         (.error, "Database verification failed: " ++ e)]

/-- Modelled from the spec: the Express `verifyRequirements`
(`server/express/src/config/database.ts`) is referenced by `startServer`
but its body is not among the available sources.  Per §4.2 and §7 every
failure path inside it is swallowed-and-logged at the verifier's boundary
(count read failure, index-creation failure, empty collection) and nothing
is propagated. -/
def verifyRequirements (o : DbOutcomes) : Except String (List (LogLevel × String)) :=
  .ok
    ((match o.countResult with
      | .ok 0 => [(LogLevel.warn, "Movies collection is empty; load the sample dataset")]
      | .ok _ => [(LogLevel.info, "Movies collection verified")]
      | .error e => [(LogLevel.error, "Requirement verification failed: " ++ e)]) ++
     (match o.indexResult with
      | .ok _ => [(LogLevel.info, "Text index verified")]
      | .error e =>
        [(LogLevel.error, "Could not create text index: " ++ e),
         (LogLevel.warn, "Text search will not function")]))

/-- Terminal states of the Express `startServer`. -/
inductive ServerEnd where
  | listening
  | exited1
deriving DecidableEq, Repr

/-- Express `startServer` (index.ts): connect, verify requirements, then
listen; any exception escaping into its catch block calls
`process.exit(1)`. -/
def startServer (connectResult : Except String Unit) (o : DbOutcomes) : ServerEnd :=
  match connectResult with
  | .error _ => .exited1
  | .ok _ =>
    match verifyRequirements o with
    | .error _ => .exited1
    | .ok _ => .listening

/-! ## Batch delete

`deleteMoviesBatch` in both backends rejects a missing or empty filter
before any `deleteMany` is issued.  The database is an abstract state `σ`
and `deleteMany` a state transformer supplied by the storage layer. -/

inductive BatchDeleteOutcome where
  | badRequest (code : String)
  | deleted (count : Nat)
deriving DecidableEq, Repr

/-- Express `deleteMoviesBatch`: `!filter || Object.keys(filter).length === 0`
answers 400 `MISSING_FILTER` and returns before touching the collection. -/
def ExpressCtrl.deleteMoviesBatch {σ : Type} (filter : Option (List (String × String)))
    (db : σ) (deleteMany : σ → σ × Nat) : BatchDeleteOutcome × σ :=
  match filter with
  | none => (.badRequest "MISSING_FILTER", db)
  | some kvs =>
    if kvs.isEmpty then (.badRequest "MISSING_FILTER", db)
    else
      let r := deleteMany db
      (.deleted r.2, r.1)

/-- Java `deleteMoviesBatch`: `filter == null || filter.isEmpty()` throws
`ValidationException` (surfaced as a 400) before `repository.deleteMany`. -/
def Java.deleteMoviesBatch {σ : Type} (filter : Option (List (String × String)))
    (db : σ) (deleteMany : σ → σ × Nat) : Except String (Nat × σ) :=
  match filter with
  | none => .error "ValidationException: Filter object is required and cannot be empty."
  | some kvs =>
    if kvs.isEmpty then
      .error "ValidationException: Filter object is required and cannot be empty."
    else
      let r := deleteMany db
      .ok (r.2, r.1)

/-! ## Helper lemmas -/

/-- The shared Express filter construction can only fail in the genre
branch: whenever the genre pattern (if truthy) compiles, the filter is
built successfully. -/
theorem expressFilter_isOk (qp : RawQuery)
    (h : ∀ g : String, qp.genre = some g → (compileRegex g).isSome = true) :
    (expressFilter qp).isOk = true := by
  unfold expressFilter
  cases hg : qp.genre with
  | none => rfl
  | some g =>
    by_cases hge : g = ""
    · subst hge
      rfl
    · rcases hc : compileRegex g with _ | pat
      · have := h g hg
        rw [hc] at this
        exact Bool.noConfusion this
      · have ht : strTruthy (some g) = true := by
          simp [strTruthy, hge]
        simp only [ht, if_true, Option.getD_some, hc]
        rfl

/-- `buildFilter` can only fail in the genre branch. -/
theorem javaBuildFilter_isOk (mq : MovieSearchQuery)
    (h : ∀ g : String, mq.genre = some g → (compileRegex g).isSome = true) :
    (Java.buildFilter mq).isOk = true := by
  unfold Java.buildFilter
  cases hg : mq.genre with
  | none => rfl
  | some g =>
    by_cases hge : javaBlank g = true
    · simp only [hge, if_true]
      rfl
    · rcases hc : compileRegex g with _ | pat
      · have := h g hg
        rw [hc] at this
        exact Bool.noConfusion this
      · simp only [Bool.not_eq_true] at hge
        simp only [hge, Bool.false_eq_true, if_false, hc]
        rfl

/-- Matching a pattern of plain literal atoms starting at position `i` is
exactly a case-insensitive character-by-character comparison with the rest
of the string from `i`. -/
theorem matchesAt_lit_eq_headMatchCI (needle : List Char) :
    ∀ (cs : List Char) (i : Nat),
      matchesAt (needle.map RAtom.lit) cs i = headMatchCI needle (cs.drop i) := by
  induction needle with
  | nil => intro cs i; rfl
  | cons a as ih =>
    intro cs i
    show (match cs.get? i with
          | some d => charEqCI a d && matchesAt (as.map RAtom.lit) cs (i + 1)
          | none => false)
        = headMatchCI (a :: as) (cs.drop i)
    rcases hg : cs.get? i with _ | d
    · have hlen : cs.length ≤ i := List.get?_eq_none.mp hg
      rw [List.drop_eq_nil_of_le hlen]
      rfl
    · obtain ⟨hlt, hget⟩ := List.get?_eq_some.mp hg
      rw [List.drop_eq_getElem_cons hlt]
      simp only [List.get_eq_getElem] at hget
      rw [hget, headMatchCI, ih cs (i + 1)]

/-- If `needle` occurs in `hay` as a case-insensitive substring, then the
all-literal regex built from `needle` matches `hay`. -/
theorem containsSubstrCI_regexTest (hay needle : String)
    (h : containsSubstrCI hay needle = true) :
    regexTest (needle.data.map RAtom.lit) hay = true := by
  unfold containsSubstrCI at h
  unfold regexTest
  rw [List.any_eq_true] at h ⊢
  obtain ⟨i, hi, hm⟩ := h
  refine ⟨i, hi, ?_⟩
  rw [matchesAt_lit_eq_headMatchCI]
  exact hm

/-! ## Claim theorems -/

/-- Claim C1, counterexample: in the original Express controller
(`movieController.ts`), `limit="abc"` compiles to
`Math.min(parseInt("abc"), 100) = NaN` (modelled as `none`), not to the
default 20 and not to any integer in `[1, 100]` as the claim states. -/
theorem claim1_counterexample :
    (ExpressCtrl.getAllMoviesQuery { lim := some "abc" }).map CompiledQuery.lim
      = Except.ok none ∧
    (ExpressCtrl.getAllMoviesQuery { lim := some "abc" }).map CompiledQuery.lim
      ≠ Except.ok (some 20) := by
  refine ⟨rfl, fun h => ?_⟩
  rw [show (ExpressCtrl.getAllMoviesQuery { lim := some "abc" }).map CompiledQuery.lim
        = Except.ok none from rfl] at h
  exact Option.noConfusion (Except.ok.inj h)

/-- Claim C1 as amended: the stated defaulting/clamping rule (absent or
unparseable resolves to 20, below 1 clamps to 1, above 100 clamps to 100,
hence always `1 ≤ L ≤ 100`) holds for the Java service's limit and for the
revised Express handler's limit — except that the revised Express handler
sends a parsed `0` to the default 20 rather than clamping it to 1; the
original Express controller only caps at 100 and is excluded. -/
theorem claim1_amended_limit_clamped :
    (∀ l : Option Int, 1 ≤ Java.limitOf l ∧ Java.limitOf l ≤ 100) ∧
    Java.limitOf none = 20 ∧
    (∀ n : Int, n < 1 → Java.limitOf (some n) = 1) ∧
    (∀ n : Int, 100 < n → Java.limitOf (some n) = 100) ∧
    (∀ n : Int, 1 ≤ n → n ≤ 100 → Java.limitOf (some n) = n) ∧
    (∀ ls : Option String, 1 ≤ ExpressRev.limitNum ls ∧ ExpressRev.limitNum ls ≤ 100) ∧
    ExpressRev.limitNum none = 20 ∧
    (∀ s : String, parseIntJs s = none → ExpressRev.limitNum (some s) = 20) ∧
    ExpressRev.limitNum (some "0") = 20 := by
  refine ⟨fun l => ?_, by decide, fun n h => ?_, fun n h => ?_, fun n h1 h2 => ?_,
          fun ls => ?_, by decide, fun s h => ?_, by decide⟩
  · unfold Java.limitOf; omega
  · unfold Java.limitOf; simp only [Option.getD_some]; omega
  · unfold Java.limitOf; simp only [Option.getD_some]; omega
  · unfold Java.limitOf; simp only [Option.getD_some]; omega
  · unfold ExpressRev.limitNum; omega
  · unfold ExpressRev.limitNum
    simp only [Option.getD_some, h, jsOrInt]
    decide

/-- Witness for the amended C1 at concrete inputs: limit 0 clamps to 1 and
5000 clamps to 100 in the Java service, and the unparseable string "abc"
resolves to 20 in the revised Express handler. -/
theorem claim1_amended_limit_clamped_witness :
    Java.limitOf (some 0) = 1 ∧ Java.limitOf (some 5000) = 100 ∧
    ExpressRev.limitNum (some "abc") = 20 :=
  ⟨claim1_amended_limit_clamped.2.2.1 0 (by decide),
   claim1_amended_limit_clamped.2.2.2.1 5000 (by decide),
   claim1_amended_limit_clamped.2.2.2.2.2.2.2.1 "abc" (by decide)⟩

/-- Claim C2, counterexample: in the original Express controller the skip
parameter is `parseInt(skip)` with no clamp, so `skip="-3"` compiles to
`-3 < 0`, contradicting the claimed invariant `S ≥ 0`. -/
theorem claim2_counterexample :
    (ExpressCtrl.getAllMoviesQuery { skipP := some "-3" }).map CompiledQuery.skipN
      = Except.ok (some (-3)) ∧ ¬ (0 : Int) ≤ -3 := by
  exact ⟨rfl, by decide⟩

/-- Claim C2 as amended: skip is clamped to `S ≥ 0`, with absent or
unparseable input resolving to 0 and negative parsed values clamping to 0,
in the Java service and in the revised Express handler; the original
Express controller passes negative and `NaN` values through unclamped and
is excluded. -/
theorem claim2_amended_skip_clamped :
    (∀ sk : Option Int, 0 ≤ Java.skipOf sk) ∧
    Java.skipOf none = 0 ∧
    (∀ n : Int, n < 0 → Java.skipOf (some n) = 0) ∧
    (∀ n : Int, 0 ≤ n → Java.skipOf (some n) = n) ∧
    (∀ ss : Option String, 0 ≤ ExpressRev.skipNum ss) ∧
    ExpressRev.skipNum none = 0 ∧
    (∀ s : String, parseIntJs s = none → ExpressRev.skipNum (some s) = 0) := by
  refine ⟨fun sk => ?_, by decide, fun n h => ?_, fun n h => ?_, fun ss => ?_,
          by decide, fun s h => ?_⟩
  · unfold Java.skipOf; omega
  · unfold Java.skipOf; simp only [Option.getD_some]; omega
  · unfold Java.skipOf; simp only [Option.getD_some]; omega
  · unfold ExpressRev.skipNum; omega
  · unfold ExpressRev.skipNum
    simp only [Option.getD_some, h, jsOrInt]
    decide

/-- Witness for the amended C2 at concrete inputs: `-3` clamps to 0 in the
Java service and the unparseable string "xyz" resolves to 0 in the revised
Express handler. -/
theorem claim2_amended_skip_clamped_witness :
    Java.skipOf (some (-3)) = 0 ∧ ExpressRev.skipNum (some "xyz") = 0 :=
  ⟨claim2_amended_skip_clamped.2.2.1 (-3) (by decide),
   claim2_amended_skip_clamped.2.2.2.2.2.2 "xyz" (by decide)⟩

/-- Claim C5, counterexample: the Express handlers compare
`sortOrder === 'desc'` case-sensitively, so `sortOrder="DESC"` resolves to
ascending (`1`), while the claim says every case-insensitive spelling of
"desc" yields descending (`-1`). -/
theorem claim5_counterexample :
    expressSortDir (some "DESC") = 1 ∧ (1 : Int) ≠ -1 := by
  exact ⟨rfl, by decide⟩

/-- Claim C5 as amended: in the Java service the direction is descending
iff `sortOrder` equals "desc" case-insensitively ("desc", "DESC", "Desc"
all descending); in the Express handlers it is descending iff `sortOrder`
is exactly the lowercase literal "desc", every other value (including
"DESC" and absent) yielding ascending. -/
theorem claim5_amended_sort_direction :
    (∀ sb so : Option String,
      (Java.buildSort sb so).2 = -1 ↔ equalsIgnoreCaseDesc so = true) ∧
    (∀ s : String, equalsIgnoreCaseDesc (some s) = true ↔
      s.data.map Char.toLower = "desc".data) ∧
    equalsIgnoreCaseDesc none = false ∧
    (∀ so : Option String, expressSortDir so = -1 ↔ so = some "desc") := by
  refine ⟨fun sb so => ?_, fun s => ?_, rfl, fun so => ?_⟩
  · unfold Java.buildSort
    cases h : equalsIgnoreCaseDesc so <;> simp [h]
  · show decide ("desc".data.map Char.toLower = s.data.map Char.toLower) = true ↔
      s.data.map Char.toLower = "desc".data
    rw [show "desc".data.map Char.toLower = "desc".data from by decide]
    simp [eq_comm]
  · unfold expressSortDir
    cases so with
    | none => simp
    | some s =>
      by_cases h : s = "desc" <;> simp [h]

/-- Claim C6: with every search field absent, all three `getAllMovies`
implementations compile the empty filter (which matches every document
under the conjunctive semantics), sort `("title", ascending)`, limit 20 and
skip 0. -/
theorem claim6_empty_criteria_defaults :
    ExpressCtrl.getAllMoviesQuery {} =
      Except.ok { filter := {}, sortField := "title", sortDir := 1,
                  lim := some 20, skipN := some 0 } ∧
    ExpressRev.getAllMoviesQuery {} =
      Except.ok { filter := {}, sortField := "title", sortDir := 1,
                  lim := some 20, skipN := some 0 } ∧
    Java.getAllMovies {} =
      Except.ok { filter := {}, sortField := "title", sortDir := 1,
                  lim := some 20, skipN := some 0 } ∧
    ∀ (tm : String → MovieDoc → Bool) (doc : MovieDoc),
      MovieFilter.docMatches {} tm doc = true := by
  exact ⟨rfl, rfl, rfl, fun tm doc => rfl⟩

/-- Claim C3, counterexample: the query compiler is not total in the genre
argument — the genre string `"("` is compiled as a regular-expression
pattern and makes both the Express handlers (`new RegExp(genre, 'i')`) and
the Java service (`Pattern.compile`) throw during filter construction. -/
theorem claim3_counterexample :
    ExpressCtrl.getAllMoviesQuery { genre := some "(" }
      = Except.error "SyntaxError: invalid regular expression" ∧
    ExpressRev.getAllMoviesQuery { genre := some "(" }
      = Except.error "SyntaxError: invalid regular expression" ∧
    Java.getAllMovies { genre := some "(" }
      = Except.error "PatternSyntaxException" := by
  exact ⟨rfl, rfl, rfl⟩

/-- Claim C3 as amended: filter/sort/pagination construction is total over
all numeric, pagination and sort inputs — malformed numeric strings degrade
rather than raise — but not over genre: construction succeeds for every
input whose genre, when present, is a compilable regular-expression
pattern, and an invalid pattern raises. -/
theorem claim3_amended_total_except_genre :
    (∀ qp : RawQuery,
      (∀ g : String, qp.genre = some g → (compileRegex g).isSome = true) →
      (ExpressCtrl.getAllMoviesQuery qp).isOk = true) ∧
    (∀ qp : RawQuery,
      (∀ g : String, qp.genre = some g → (compileRegex g).isSome = true) →
      (ExpressRev.getAllMoviesQuery qp).isOk = true) ∧
    (∀ mq : MovieSearchQuery,
      (∀ g : String, mq.genre = some g → (compileRegex g).isSome = true) →
      (Java.getAllMovies mq).isOk = true) := by
  refine ⟨fun qp h => ?_, fun qp h => ?_, fun mq h => ?_⟩
  · have hf := expressFilter_isOk qp h
    unfold ExpressCtrl.getAllMoviesQuery
    rcases he : expressFilter qp with e | f
    · rw [he] at hf
      exact Bool.noConfusion hf
    · rfl
  · have hf := expressFilter_isOk qp h
    unfold ExpressRev.getAllMoviesQuery
    rcases he : expressFilter qp with e | f
    · rw [he] at hf
      exact Bool.noConfusion hf
    · rfl
  · have hf := javaBuildFilter_isOk mq h
    unfold Java.getAllMovies
    rcases he : Java.buildFilter mq with e | f
    · rw [he] at hf
      exact Bool.noConfusion hf
    · rfl

/-- Witness for the amended C3: with every numeric and sort parameter
garbled but the genre a plain pattern (or absent), all three compilers
return a result. -/
theorem claim3_amended_total_except_genre_witness :
    (ExpressCtrl.getAllMoviesQuery
      { q := some "matrix", year := some "not-a-year", minRating := some "bad",
        lim := some "abc", skipP := some "junk", sortOrder := some "sideways" }).isOk
      = true ∧
    (ExpressRev.getAllMoviesQuery { genre := some "Action", lim := some "???" }).isOk
      = true ∧
    (Java.getAllMovies { genre := some "Action" }).isOk = true :=
  ⟨claim3_amended_total_except_genre.1
      { q := some "matrix", year := some "not-a-year", minRating := some "bad",
        lim := some "abc", skipP := some "junk", sortOrder := some "sideways" }
      (fun g hg => Option.noConfusion hg),
   claim3_amended_total_except_genre.2.1
      { genre := some "Action", lim := some "???" }
      (fun g hg => by
        rw [show ({ genre := some "Action", lim := some "???" } : RawQuery).genre
              = some "Action" from rfl] at hg
        rw [← Option.some.inj hg]
        decide),
   claim3_amended_total_except_genre.2.2 { genre := some "Action" }
      (fun g hg => by
        rw [show ({ genre := some "Action" } : MovieSearchQuery).genre
              = some "Action" from rfl] at hg
        rw [← Option.some.inj hg]
        decide)⟩

/-- Claim C4: for every outcome of the verifier's database calls, the Java
`verifyDatabase` returns normally (its outer catch swallows the count-read
failure, and `createTextSearchIndex` its own failure), the spec-modelled
Express `verifyRequirements` returns normally, and the Express
`startServer` reaches `listening` whenever the database connection itself
succeeded — a verifier failure never aborts startup. -/
theorem claim4_verifier_never_aborts :
    (∀ o : DbOutcomes, (Java.verifyDatabase o).isOk = true) ∧
    (∀ o : DbOutcomes, (verifyRequirements o).isOk = true) ∧
    (∀ o : DbOutcomes, startServer (Except.ok ()) o = ServerEnd.listening) := by
  refine ⟨fun o => ?_, fun o => rfl, fun o => rfl⟩
  unfold Java.verifyDatabase
  rcases Java.verifyMoviesCollection o with e | logs <;> rfl

/-- Claim C7, counterexample: a malformed year string is not treated as
absent — the Express controller stores `parseInt("abc") = NaN` as the
year predicate (`filter.year = some none`, a present `NaN` clause), instead
of omitting the clause (`none`) as the claim requires. -/
theorem claim7_counterexample :
    (ExpressCtrl.getAllMoviesQuery { year := some "abc" }).map
        (fun c => c.filter.year) = Except.ok (some none) ∧
    (ExpressCtrl.getAllMoviesQuery { year := some "abc" }).map
        (fun c => c.filter.year) ≠ Except.ok none := by
  refine ⟨rfl, fun h => ?_⟩
  rw [show (ExpressCtrl.getAllMoviesQuery { year := some "abc" }).map
        (fun c => c.filter.year) = Except.ok (some none) from rfl] at h
  exact Option.noConfusion (Except.ok.inj h)

/-- Claim C7 as amended: malformed pagination strings degrade to the
defaults (revised Express handler), and no malformed numeric string raises
an error; but a malformed `year`, `minRating` or `maxRating` string in the
Express handlers is not treated as absent — it inserts a `NaN` bound into
the compiled filter.  (In the Java service the numeric parameters are typed,
so unparseable values cannot reach `buildFilter`.) -/
theorem claim7_amended_malformed_numeric :
    (∀ s : String, parseIntJs s = none →
      ExpressRev.limitNum (some s) = 20 ∧ ExpressRev.skipNum (some s) = 0) ∧
    (∀ y : String, parseIntJs y = none → y ≠ "" →
      (ExpressCtrl.getAllMoviesQuery { year := some y }).map
          (fun c => c.filter.year) = Except.ok (some none) ∧
      (ExpressCtrl.getAllMoviesQuery { year := some y }).isOk = true) ∧
    (∀ m : String, parseFloatJs m = none → m ≠ "" →
      (ExpressCtrl.getAllMoviesQuery { minRating := some m }).map
          (fun c => c.filter.rating)
        = Except.ok (some { gte := some none, lte := none }) ∧
      (ExpressCtrl.getAllMoviesQuery { minRating := some m }).isOk = true) := by
  refine ⟨fun s h => ⟨?_, ?_⟩, fun y h hne => ?_, fun m h hne => ?_⟩
  · unfold ExpressRev.limitNum
    simp only [Option.getD_some, h, jsOrInt]
    decide
  · unfold ExpressRev.skipNum
    simp only [Option.getD_some, h, jsOrInt]
    decide
  · have ht : strTruthy (some y) = true := by simp [strTruthy, hne]
    constructor <;>
      simp [ExpressCtrl.getAllMoviesQuery, expressFilter, ht, h, hne, strTruthy,
        Bind.bind, Except.bind, Except.map, Except.isOk, Except.toBool, pure,
        Except.pure]
  · have ht : strTruthy (some m) = true := by simp [strTruthy, hne]
    constructor <;>
      simp [ExpressCtrl.getAllMoviesQuery, expressFilter, ht, h, hne, strTruthy,
        Bind.bind, Except.bind, Except.map, Except.isOk, Except.toBool, pure,
        Except.pure]

/-- Witness for the amended C7 at the spec's own example inputs
(`limit="abc"`, `year="abc"`, `minRating="bad"`). -/
theorem claim7_amended_malformed_numeric_witness :
    (ExpressRev.limitNum (some "abc") = 20 ∧ ExpressRev.skipNum (some "abc") = 0) ∧
    (ExpressCtrl.getAllMoviesQuery { year := some "abc" }).map
        (fun c => c.filter.year) = Except.ok (some none) ∧
    (ExpressCtrl.getAllMoviesQuery { minRating := some "bad" }).map
        (fun c => c.filter.rating)
      = Except.ok (some { gte := some none, lte := none }) :=
  ⟨claim7_amended_malformed_numeric.1 "abc" (by decide),
   (claim7_amended_malformed_numeric.2.1 "abc" (by decide) (by decide)).1,
   (claim7_amended_malformed_numeric.2.2 "bad" (by decide) (by decide)).1⟩

/-- Claim C10: a batch delete with a missing or empty filter is rejected
(Express: 400 `MISSING_FILTER`; Java: `ValidationException`) before any
`deleteMany` reaches the storage layer, leaving the database state
unchanged for every possible `deleteMany` behavior. -/
theorem claim10_empty_filter_rejected :
    ∀ (σ : Type) (db : σ) (dm : σ → σ × Nat),
      ExpressCtrl.deleteMoviesBatch none db dm
        = (BatchDeleteOutcome.badRequest "MISSING_FILTER", db) ∧
      ExpressCtrl.deleteMoviesBatch (some []) db dm
        = (BatchDeleteOutcome.badRequest "MISSING_FILTER", db) ∧
      Java.deleteMoviesBatch none db dm
        = Except.error
            "ValidationException: Filter object is required and cannot be empty." ∧
      Java.deleteMoviesBatch (some []) db dm
        = Except.error
            "ValidationException: Filter object is required and cannot be empty." := by
  exact fun σ db dm => ⟨rfl, rfl, rfl, rfl⟩

/-- Claim C8, counterexample: the genre input is used as a regex pattern,
not a literal substring — with `genre="n$"` the document whose genre list
contains "n$x" has "n$" as a (case-insensitive) substring, yet the
compiled predicate does not match it, because `$` is an end anchor. -/
theorem claim8_counterexample :
    containsSubstrCI "n$x" "n$" = true ∧
    (ExpressCtrl.getAllMoviesQuery { genre := some "n$" }).map
        (fun c => c.filter.genres) = Except.ok (some [RAtom.lit 'n', RAtom.eol]) ∧
    MovieFilter.docMatches { genres := some [RAtom.lit 'n', RAtom.eol] }
        (fun _ _ => true) { genresD := ["n$x"] } = false := by
  exact ⟨by decide, rfl, by decide⟩

/-- Claim C8 as amended: for genre inputs that compile to a pure literal
pattern (no regex metacharacters), the compiled predicate does match every
document one of whose genre strings contains the input as a
case-insensitive substring at any position — in particular
`genre="ACTION"` matches a document with genre "Action"; for inputs with
metacharacters the string is interpreted as a regular expression, whose
anchors can fail to match a literal occurrence. -/
theorem claim8_amended_genre_substring :
    (∀ (g : String) (pat : List RAtom), g ≠ "" → compileRegex g = some pat →
      (ExpressCtrl.getAllMoviesQuery { genre := some g }).map
          (fun c => c.filter.genres) = Except.ok (some pat)) ∧
    (∀ g : String, compileRegex g = some (g.data.map RAtom.lit) →
      ∀ (doc : MovieDoc) (tm : String → MovieDoc → Bool) (s : String),
        s ∈ doc.genresD → containsSubstrCI s g = true →
        MovieFilter.docMatches { genres := some (g.data.map RAtom.lit) } tm doc
          = true) := by
  constructor
  · intro g pat hne hc
    have ht : strTruthy (some g) = true := by simp [strTruthy, hne]
    simp [ExpressCtrl.getAllMoviesQuery, expressFilter, ht, hc, hne, strTruthy,
      Bind.bind, Except.bind, Except.map, pure, Except.pure]
  · intro g hc doc tm s hs hsub
    show (true &&
        (doc.genresD.any fun x => regexTest (g.data.map RAtom.lit) x) &&
        true && true) = true
    simp only [Bool.true_and, Bool.and_true]
    rw [List.any_eq_true]
    exact ⟨s, hs, containsSubstrCI_regexTest s g hsub⟩

/-- Witness for the amended C8 at the spec's own instance: `genre="ACTION"`
compiles to the literal pattern and its predicate matches a document whose
genre list contains "Action". -/
theorem claim8_amended_genre_substring_witness :
    (ExpressCtrl.getAllMoviesQuery { genre := some "ACTION" }).map
        (fun c => c.filter.genres)
      = Except.ok (some ("ACTION".data.map RAtom.lit)) ∧
    MovieFilter.docMatches { genres := some ("ACTION".data.map RAtom.lit) }
        (fun _ _ => false) { genresD := ["Action"] } = true :=
  ⟨claim8_amended_genre_substring.1 "ACTION" ("ACTION".data.map RAtom.lit)
      (by decide) (by decide),
   claim8_amended_genre_substring.2 "ACTION" (by decide)
      { genresD := ["Action"] } (fun _ _ => false) "Action"
      (List.mem_singleton.mpr rfl) (by decide)⟩

/-- Claim C9: whenever rating bounds are present the compiled predicate is
an inclusive `$gte`/`$lte` range on `imdb.rating` — both bounds, or either
bound alone as an open-ended range — and a document whose rating equals a
bound satisfies it; in the Express controller the same shape is produced
from any rating strings that parse. -/
theorem claim9_rating_range_inclusive :
    (∀ a b : ℚ,
      (Java.getAllMovies { minRating := some a, maxRating := some b }).map
          (fun c => c.filter.rating)
        = Except.ok (some { gte := some (some a), lte := some (some b) }) ∧
      ∀ r : ℚ,
        RatingRange.holdsFor { gte := some (some a), lte := some (some b) }
            (some r) = true
          ↔ (a ≤ r ∧ r ≤ b)) ∧
    (∀ a : ℚ,
      (Java.getAllMovies { minRating := some a }).map (fun c => c.filter.rating)
        = Except.ok (some { gte := some (some a), lte := none }) ∧
      ∀ r : ℚ,
        RatingRange.holdsFor { gte := some (some a), lte := none } (some r) = true
          ↔ a ≤ r) ∧
    (∀ b : ℚ,
      (Java.getAllMovies { maxRating := some b }).map (fun c => c.filter.rating)
        = Except.ok (some { gte := none, lte := some (some b) }) ∧
      ∀ r : ℚ,
        RatingRange.holdsFor { gte := none, lte := some (some b) } (some r) = true
          ↔ r ≤ b) ∧
    (∀ (mn mx : String) (qm qx : ℚ), mn ≠ "" → mx ≠ "" →
      parseFloatJs mn = some qm → parseFloatJs mx = some qx →
      (ExpressCtrl.getAllMoviesQuery
          { minRating := some mn, maxRating := some mx }).map
          (fun c => c.filter.rating)
        = Except.ok (some { gte := some (some qm), lte := some (some qx) })) := by
  refine ⟨fun a b => ⟨rfl, fun r => ?_⟩, fun a => ⟨rfl, fun r => ?_⟩,
          fun b => ⟨rfl, fun r => ?_⟩, fun mn mx qm qx h1 h2 hmn hmx => ?_⟩
  · simp [RatingRange.holdsFor]
  · simp [RatingRange.holdsFor]
  · simp [RatingRange.holdsFor]
  · have ht1 : strTruthy (some mn) = true := by simp [strTruthy, h1]
    have ht2 : strTruthy (some mx) = true := by simp [strTruthy, h2]
    simp [ExpressCtrl.getAllMoviesQuery, expressFilter, ht1, ht2, hmn, hmx,
      h1, h2, strTruthy, Bind.bind, Except.bind, Except.map, pure, Except.pure]

/-- Witness for C9 at the spec's own instance `minRating=7.0`,
`maxRating=9.0`: both bounds are produced and documents rated exactly 7.0
or exactly 9.0 satisfy the range. -/
theorem claim9_rating_range_inclusive_witness :
    (Java.getAllMovies { minRating := some 7, maxRating := some 9 }).map
        (fun c => c.filter.rating)
      = Except.ok (some { gte := some (some 7), lte := some (some 9) }) ∧
    RatingRange.holdsFor { gte := some (some 7), lte := some (some 9) } (some 7)
      = true ∧
    RatingRange.holdsFor { gte := some (some 7), lte := some (some 9) } (some 9)
      = true ∧
    (ExpressCtrl.getAllMoviesQuery
        { minRating := some "7.0", maxRating := some "9.0" }).map
        (fun c => c.filter.rating)
      = Except.ok (some { gte := some (some 7), lte := some (some 9) }) :=
  ⟨(claim9_rating_range_inclusive.1 7 9).1,
   ((claim9_rating_range_inclusive.1 7 9).2 7).mpr (by norm_num),
   ((claim9_rating_range_inclusive.1 7 9).2 9).mpr (by norm_num),
   claim9_rating_range_inclusive.2.2.2 "7.0" "9.0" 7 9 (by decide) (by decide)
     (by
       show some ((1 : ℚ) * ((digitsVal ['7'] : ℚ) +
           (digitsVal ['0'] : ℚ) / (10 : ℚ) ^ ([('0' : Char)].length))) = some 7
       norm_num [digitsVal, show ('7'.toNat - 48) = 7 from rfl,
         show ('0'.toNat - 48) = 0 from rfl])
     (by
       show some ((1 : ℚ) * ((digitsVal ['9'] : ℚ) +
           (digitsVal ['0'] : ℚ) / (10 : ℚ) ^ ([('0' : Char)].length))) = some 9
       norm_num [digitsVal, show ('9'.toNat - 48) = 9 from rfl,
         show ('0'.toNat - 48) = 0 from rfl])⟩

end Mflix
